import Mathlib

/-!
Verification of the view-controller state logic of the Goiânia tile viewer
(`src/components/MapViewer.tsx`).  The component keeps two `Coordinates`
records: `coordinates` (the committed view driving the map) and
`inputCoordinates` (the pending view mirroring the form inputs), and mutates
them through four handlers: `handleInputChange`, `handleNavigate`,
`handleZoom` and `handleReset`.

JavaScript numbers are modelled by `JSNum`: NaN, the two infinities, and
finite values represented exactly as rationals (decimal literals and
`parseFloat` results are taken at their exact decimal value rather than the
nearest IEEE double; no claim below depends on double rounding).
-/

namespace MapViewer

/-- A JavaScript number: NaN, +Infinity, -Infinity, or a finite value
(modelled exactly as a rational). -/
inductive JSNum where
  | nan : JSNum
  | inf : JSNum
  | ninf : JSNum
  | fin (q : ℚ) : JSNum
deriving DecidableEq, Repr

namespace JSNum

/-- JavaScript `isNaN` (on numbers): true exactly on NaN. -/
def isNaN : JSNum → Bool
  | .nan => true
  | _ => false

/-- JavaScript `Number.isFinite`: true exactly on finite values. -/
def isFinite : JSNum → Bool
  | .fin _ => true
  | _ => false

/-- JavaScript `+` on numbers: NaN is absorbing, opposite infinities give
NaN, an infinity dominates a finite value. -/
def add : JSNum → JSNum → JSNum
  | .nan, _ => .nan
  | _, .nan => .nan
  | .inf, .ninf => .nan
  | .ninf, .inf => .nan
  | .inf, _ => .inf
  | _, .inf => .inf
  | .ninf, _ => .ninf
  | _, .ninf => .ninf
  | .fin a, .fin b => .fin (a + b)

/-- Negation, used for the sign of `parseFloat`. -/
def neg : JSNum → JSNum
  | .nan => .nan
  | .inf => .ninf
  | .ninf => .inf
  | .fin q => .fin (-q)

end JSNum

/-- JavaScript `Math.max` on two numbers: NaN if either argument is NaN. -/
def jsMax : JSNum → JSNum → JSNum
  | .nan, _ => .nan
  | _, .nan => .nan
  | .inf, _ => .inf
  | _, .inf => .inf
  | .ninf, b => b
  | a, .ninf => a
  | .fin a, .fin b => .fin (max a b)

/-- JavaScript `Math.min` on two numbers: NaN if either argument is NaN. -/
def jsMin : JSNum → JSNum → JSNum
  | .nan, _ => .nan
  | _, .nan => .nan
  | .ninf, _ => .ninf
  | _, .ninf => .ninf
  | .inf, b => b
  | a, .inf => a
  | .fin a, .fin b => .fin (min a b)

/-- Decimal digits of a numeral, accumulated left to right. -/
def digitsToNat : List Char → Nat → Nat
  | [], acc => acc
  | c :: cs, acc => digitsToNat cs (acc * 10 + (c.toNat - 48))

/-- Exponent digits after `e`/`E` and an optional sign: at least one digit
is required, otherwise the exponent part is not consumed. -/
def expDigits (neg : Bool) (cs : List Char) : Option (Bool × Nat) :=
  let ds := cs.takeWhile Char.isDigit
  if ds.isEmpty then none else some (neg, digitsToNat ds 0)

/-- The optional exponent part of a decimal literal (`e`/`E`, optional
sign, digits). -/
def expPart : List Char → Option (Bool × Nat)
  | 'e' :: '+' :: rest => expDigits false rest
  | 'e' :: '-' :: rest => expDigits true rest
  | 'e' :: rest => expDigits false rest
  | 'E' :: '+' :: rest => expDigits false rest
  | 'E' :: '-' :: rest => expDigits true rest
  | 'E' :: rest => expDigits false rest
  | _ => none

/-- Apply a parsed exponent to a mantissa. -/
def applyExp (q : ℚ) : Option (Bool × Nat) → ℚ
  | none => q
  | some (false, n) => q * 10 ^ n
  | some (true, n) => q / 10 ^ n

/-- Longest unsigned decimal-literal prefix: integer digits, optional
fraction, optional exponent; `none` when no digit is present. -/
def parseUnsigned (cs : List Char) : Option ℚ :=
  let ip := cs.takeWhile Char.isDigit
  let rest := cs.dropWhile Char.isDigit
  match rest with
  | '.' :: cs2 =>
    let fp := cs2.takeWhile Char.isDigit
    let rest2 := cs2.dropWhile Char.isDigit
    if ip.isEmpty && fp.isEmpty then none
    else
      let base : ℚ := (digitsToNat ip 0 : ℚ) + (digitsToNat fp 0 : ℚ) / 10 ^ fp.length
      some (applyExp base (expPart rest2))
  | _ =>
    if ip.isEmpty then none
    else some (applyExp (digitsToNat ip 0 : ℚ) (expPart rest))

/-- Whitespace skipped by `parseFloat` before the numeral. -/
def jsWhitespace (c : Char) : Bool :=
  c = ' ' || c = '\t' || c = '\n' || c = '\r'

/-- The unsigned body of `parseFloat`: the literal `Infinity` or an
unsigned decimal literal; NaN when neither is present. -/
def parseFloatBody (cs : List Char) : JSNum :=
  if List.isPrefixOf "Infinity".toList cs then .inf
  else
    match parseUnsigned cs with
    | none => .nan
    | some q => .fin q

/-- JavaScript `parseFloat`: skip leading whitespace, read an optional
sign, then `Infinity` or a decimal literal; trailing garbage is ignored and
an unparsable string gives NaN. -/
def parseFloat (s : String) : JSNum :=
  match s.toList.dropWhile jsWhitespace with
  | '-' :: rest => (parseFloatBody rest).neg
  | '+' :: rest => parseFloatBody rest
  | cs => parseFloatBody cs

/-- The `Coordinates` record of `MapViewer.tsx`. -/
structure View where
  latitude : JSNum
  longitude : JSNum
  zoom : JSNum
deriving DecidableEq, Repr

/-- The three keys of `Coordinates` (`keyof Coordinates`). -/
inductive CoordField where
  | latitude
  | longitude
  | zoom
deriving DecidableEq, Repr

/-- Object-spread update `{ ...prev, [field]: value }`. -/
def View.set : View → CoordField → JSNum → View
  | v, .latitude, x => { v with latitude := x }
  | v, .longitude, x => { v with longitude := x }
  | v, .zoom, x => { v with zoom := x }

/-- Field projection by key. -/
def View.get : View → CoordField → JSNum
  | v, .latitude => v.latitude
  | v, .longitude => v.longitude
  | v, .zoom => v.zoom

/-- All three fields of a view are non-NaN. -/
def View.noNaN (v : View) : Bool :=
  !v.latitude.isNaN && !v.longitude.isNaN && !v.zoom.isNaN

/-- All three fields of a view are finite. -/
def View.allFinite (v : View) : Bool :=
  v.latitude.isFinite && v.longitude.isFinite && v.zoom.isFinite

/-- The fixed default view used for the initial state and by
`handleReset`. -/
def defaultCoordinates : View :=
  { latitude := .fin (-16667295 / 1000000)
    longitude := .fin (-49327279 / 1000000)
    zoom := .fin (1715 / 100) }

/-- The component state: `coordinates` is the committed view rendered by
the map, `inputCoordinates` the pending view shown in the form. -/
structure MapState where
  coordinates : View
  inputCoordinates : View
deriving DecidableEq, Repr

/-- Both views start at the fixed default view. -/
def initialState : MapState :=
  { coordinates := defaultCoordinates, inputCoordinates := defaultCoordinates }

/-- The user-visible toast notifications the handlers can raise. -/
inductive ToastKind where
  | invalidCoordinates
  | mapUpdated
  | mapReset
deriving DecidableEq, Repr

/-- `handleInputChange`: parse the raw text with `parseFloat` and store the
result (NaN included) into the pending field; no toast. -/
def handleInputChange (field : CoordField) (rawText : String) (s : MapState) :
    MapState × Option ToastKind :=
  ({ s with inputCoordinates := s.inputCoordinates.set field (parseFloat rawText) }, none)

/-- `handleNavigate`: if any pending field is NaN, toast
`invalidCoordinates` and leave the state unchanged; otherwise copy the
pending view into the committed view and toast `mapUpdated`. -/
def handleNavigate (s : MapState) : MapState × Option ToastKind :=
  if s.inputCoordinates.latitude.isNaN || s.inputCoordinates.longitude.isNaN
      || s.inputCoordinates.zoom.isNaN then
    (s, some .invalidCoordinates)
  else
    ({ s with coordinates := s.inputCoordinates }, some .mapUpdated)

/-- `handleZoom`: `newZoom = Math.min(Math.max(coordinates.zoom + increment,
10), 21)`, written into the zoom of both views; no toast. -/
def handleZoom (increment : JSNum) (s : MapState) : MapState × Option ToastKind :=
  let newZoom := jsMin (jsMax (s.coordinates.zoom.add increment) (.fin 10)) (.fin 21)
  ({ coordinates := { s.coordinates with zoom := newZoom }
     inputCoordinates := { s.inputCoordinates with zoom := newZoom } }, none)

/-- `handleReset`: overwrite both views with the default view and toast
`mapReset`. -/
def handleReset (_ : MapState) : MapState × Option ToastKind :=
  ({ coordinates := defaultCoordinates, inputCoordinates := defaultCoordinates },
    some .mapReset)

/-- A user action on the component. -/
inductive Action where
  | update (field : CoordField) (rawText : String)
  | navigate
  | zoomBy (delta : JSNum)
  | reset
deriving DecidableEq, Repr

/-- The state transition of one action (toasts discarded). -/
def step (s : MapState) : Action → MapState
  | .update f t => (handleInputChange f t s).1
  | .navigate => (handleNavigate s).1
  | .zoomBy d => (handleZoom d s).1
  | .reset => (handleReset s).1

/-- The state reached from the initial state by a sequence of actions. -/
def run (acts : List Action) : MapState :=
  acts.foldl step initialState

/-- An action whose zoom delta (if any) is a finite number. -/
def Action.finiteDelta : Action → Bool
  | .zoomBy d => d.isFinite
  | _ => true

/-- One application of `handleZoom`, as a pure state transformer. -/
def zoomStep (d : JSNum) (s : MapState) : MapState :=
  (handleZoom d s).1

example : parseFloat "abc" = JSNum.nan := by decide
example : parseFloat "Infinity" = JSNum.inf := by decide
example : parseFloat "-Infinity" = JSNum.ninf := by decide
example : parseFloat "" = JSNum.nan := by decide
example : parseFloat "1e" = JSNum.fin 1 := by decide

/-- A finite JavaScript number is not NaN. -/
lemma JSNum.isNaN_eq_false_of_isFinite {x : JSNum} (h : x.isFinite = true) :
    x.isNaN = false := by
  cases x <;> simp_all [JSNum.isFinite, JSNum.isNaN]

/-- C5: `handleReset` sets both the committed and the pending view to the
fixed default view `{latitude: -16.667295, longitude: -49.327279,
zoomLevel: 17.15}` and toasts success, regardless of the prior state (NaN
pending fields included). -/
theorem C5_reset (s : MapState) :
    handleReset s =
      ({ coordinates :=
          { latitude := JSNum.fin (-16667295 / 1000000)
            longitude := JSNum.fin (-49327279 / 1000000)
            zoom := JSNum.fin (1715 / 100) }
         inputCoordinates :=
          { latitude := JSNum.fin (-16667295 / 1000000)
            longitude := JSNum.fin (-49327279 / 1000000)
            zoom := JSNum.fin (1715 / 100) } }, some ToastKind.mapReset) := rfl

/-- C7: `handleZoom` leaves the latitude and longitude of both the
committed and the pending view unchanged; only the two zoom fields are
written. -/
theorem C7_zoom_frame (d : JSNum) (s : MapState) :
    (handleZoom d s).1.coordinates.latitude = s.coordinates.latitude
    ∧ (handleZoom d s).1.coordinates.longitude = s.coordinates.longitude
    ∧ (handleZoom d s).1.inputCoordinates.latitude = s.inputCoordinates.latitude
    ∧ (handleZoom d s).1.inputCoordinates.longitude = s.inputCoordinates.longitude :=
  ⟨rfl, rfl, rfl, rfl⟩

/-- C4: `handleZoom d` writes `Math.min(Math.max(z + d, 10), 21)` (with
JavaScript NaN/infinity semantics) into the zoom of both views and never
raises a toast; for finite `z` and `d` the new zoom is the rational
`min (max (z + d) 10) 21`. -/
theorem C4_zoom_clamp (d : JSNum) (s : MapState) :
    (handleZoom d s).1.coordinates.zoom
        = jsMin (jsMax (s.coordinates.zoom.add d) (JSNum.fin 10)) (JSNum.fin 21)
    ∧ (handleZoom d s).1.inputCoordinates.zoom
        = jsMin (jsMax (s.coordinates.zoom.add d) (JSNum.fin 10)) (JSNum.fin 21)
    ∧ (handleZoom d s).2 = none
    ∧ ∀ z p : ℚ, s.coordinates.zoom = JSNum.fin z → d = JSNum.fin p →
        (handleZoom d s).1.coordinates.zoom = JSNum.fin (min (max (z + p) 10) 21) := by
  refine ⟨rfl, rfl, rfl, ?_⟩
  intro z p hz hp
  subst hp
  show jsMin (jsMax (s.coordinates.zoom.add (JSNum.fin p)) (JSNum.fin 10)) (JSNum.fin 21)
      = JSNum.fin (min (max (z + p) 10) 21)
  rw [hz]
  simp [JSNum.add, jsMax, jsMin]

/-- Witness for C4 at the initial state with delta 1. -/
theorem C4_zoom_clamp_witness :
    (handleZoom (JSNum.fin 1) initialState).1.coordinates.zoom
      = JSNum.fin (min (max (1715 / 100 + 1) 10) 21) :=
  (C4_zoom_clamp (JSNum.fin 1) initialState).2.2.2 (1715 / 100) 1 rfl rfl

/-- C3: when all three pending fields are finite, `handleNavigate` copies
the pending view into the committed view unmodified (in particular the zoom
is not clamped to [10, 21]) and toasts success. -/
theorem C3_navigate_valid (s : MapState)
    (hla : s.inputCoordinates.latitude.isFinite = true)
    (hlo : s.inputCoordinates.longitude.isFinite = true)
    (hzo : s.inputCoordinates.zoom.isFinite = true) :
    (handleNavigate s).1.coordinates = s.inputCoordinates
    ∧ (handleNavigate s).2 = some ToastKind.mapUpdated := by
  simp [handleNavigate, JSNum.isNaN_eq_false_of_isFinite hla,
    JSNum.isNaN_eq_false_of_isFinite hlo, JSNum.isNaN_eq_false_of_isFinite hzo]

/-- Witness for C3 at a pending view with zoom 50, outside [10, 21]: the
committed zoom becomes exactly 50. -/
theorem C3_navigate_valid_witness :
    (handleNavigate
        { coordinates := defaultCoordinates
          inputCoordinates :=
            { latitude := JSNum.fin 1, longitude := JSNum.fin 2,
              zoom := JSNum.fin 50 } }).1.coordinates
      = { latitude := JSNum.fin 1, longitude := JSNum.fin 2, zoom := JSNum.fin 50 } :=
  (C3_navigate_valid
    { coordinates := defaultCoordinates
      inputCoordinates :=
        { latitude := JSNum.fin 1, longitude := JSNum.fin 2, zoom := JSNum.fin 50 } }
    rfl rfl rfl).1

/-- C9: `handleNavigate` never changes the pending view; on a success
toast the committed view becomes the untouched pending view, and on a
failure toast the whole state is unchanged. -/
theorem C9_navigate_pending_frame (s : MapState) :
    (handleNavigate s).1.inputCoordinates = s.inputCoordinates
    ∧ ((handleNavigate s).2 = some ToastKind.mapUpdated →
        (handleNavigate s).1.coordinates = s.inputCoordinates)
    ∧ ((handleNavigate s).2 = some ToastKind.invalidCoordinates →
        (handleNavigate s).1 = s) := by
  by_cases h : (s.inputCoordinates.latitude.isNaN || s.inputCoordinates.longitude.isNaN
      || s.inputCoordinates.zoom.isNaN) = true
  · simp [handleNavigate, h]
  · simp [handleNavigate, h]

/-- Witness for C9 at the initial state, where navigation succeeds. -/
theorem C9_navigate_pending_frame_witness :
    (handleNavigate initialState).1.coordinates = initialState.inputCoordinates :=
  (C9_navigate_pending_frame initialState).2.1 rfl

/-- C6: `handleInputChange` stores `parseFloat rawText` (NaN included)
into the selected pending field, raises no toast, and leaves the committed
view and the other two pending fields unchanged. -/
theorem C6_update_pending (f : CoordField) (t : String) (s : MapState) :
    (handleInputChange f t s).1.inputCoordinates = s.inputCoordinates.set f (parseFloat t)
    ∧ (handleInputChange f t s).1.coordinates = s.coordinates
    ∧ (handleInputChange f t s).2 = none
    ∧ ∀ g : CoordField, g ≠ f →
        (handleInputChange f t s).1.inputCoordinates.get g = s.inputCoordinates.get g := by
  refine ⟨rfl, rfl, rfl, ?_⟩
  intro g hg
  cases f <;> cases g <;> simp_all [handleInputChange, View.set, View.get]

/-- Witness for C6: updating the latitude with the unparsable text `abc`
leaves the pending zoom unchanged. -/
theorem C6_update_pending_witness :
    (handleInputChange CoordField.latitude "abc" initialState).1.inputCoordinates.get
        CoordField.zoom
      = initialState.inputCoordinates.get CoordField.zoom :=
  (C6_update_pending CoordField.latitude "abc" initialState).2.2.2 CoordField.zoom
    (by decide)

/-- C2 as stated is false: with pending latitude `Infinity` (reachable,
since `parseFloat "Infinity"` is `Infinity`), the latitude is not finite
yet `handleNavigate` succeeds and overwrites the committed view, because
the code only checks `isNaN`. -/
theorem C2_counterexample :
    ¬ ∀ s : MapState,
        (((handleNavigate s).2 = some ToastKind.invalidCoordinates
            ∧ (handleNavigate s).1.coordinates = s.coordinates)
          ↔ (s.inputCoordinates.latitude.isFinite = false
              ∨ s.inputCoordinates.longitude.isFinite = false
              ∨ s.inputCoordinates.zoom.isFinite = false)) := by
  intro h
  have h2 := ((h { coordinates := defaultCoordinates
                   inputCoordinates := { defaultCoordinates with latitude := JSNum.inf } }).mpr
    (Or.inl rfl)).1
  exact absurd h2 (by decide)

/-- C2 amended: `handleNavigate` toasts the validation failure and leaves
both the committed and the pending view unchanged exactly when at least one
pending field is NaN (not: not finite — `Infinity` passes the check). -/
theorem C2_navigate_validation (s : MapState) :
    (((handleNavigate s).2 = some ToastKind.invalidCoordinates
        ∧ (handleNavigate s).1.coordinates = s.coordinates
        ∧ (handleNavigate s).1.inputCoordinates = s.inputCoordinates)
      ↔ (s.inputCoordinates.latitude.isNaN = true
          ∨ s.inputCoordinates.longitude.isNaN = true
          ∨ s.inputCoordinates.zoom.isNaN = true)) := by
  cases hla : s.inputCoordinates.latitude.isNaN <;>
    cases hlo : s.inputCoordinates.longitude.isNaN <;>
    cases hzo : s.inputCoordinates.zoom.isNaN <;>
    simp [handleNavigate, hla, hlo, hzo]

/-- C10: when the two zoom fields agree on a common value in [10, 21],
`handleZoom 0` is the identity on the whole state; but when they disagree,
`handleZoom 0` overwrites the pending zoom with the clamped committed
value, so it is not the identity on the pending view. -/
theorem C10_zoom_zero :
    (∀ (s : MapState) (q : ℚ), s.coordinates.zoom = JSNum.fin q →
        s.inputCoordinates.zoom = JSNum.fin q → 10 ≤ q → q ≤ 21 →
        (handleZoom (JSNum.fin 0) s).1 = s)
    ∧ (∃ s : MapState, s.inputCoordinates.zoom ≠ s.coordinates.zoom
        ∧ (handleZoom (JSNum.fin 0) s).1.inputCoordinates.zoom
            ≠ s.inputCoordinates.zoom) := by
  constructor
  · intro s q hc hp h10 h21
    obtain ⟨⟨a, b, c⟩, ⟨x, y, z⟩⟩ := s
    change c = JSNum.fin q at hc
    change z = JSNum.fin q at hp
    subst hc
    subst hp
    simp [handleZoom, JSNum.add, jsMax, jsMin, add_zero, max_eq_left h10,
      min_eq_left h21]
  · refine ⟨⟨⟨JSNum.fin 0, JSNum.fin 0, JSNum.fin 15⟩,
      ⟨JSNum.fin 0, JSNum.fin 0, JSNum.fin 12⟩⟩, ?_, ?_⟩
    · simp only [ne_eq, JSNum.fin.injEq]
      norm_num
    · show jsMin (jsMax ((JSNum.fin (15 : ℚ)).add (JSNum.fin 0)) (JSNum.fin 10))
          (JSNum.fin 21) ≠ JSNum.fin 12
      simp only [JSNum.add, jsMax, jsMin, ne_eq, JSNum.fin.injEq]
      norm_num

/-- Witness for C10 at a state with both zooms equal to 15. -/
theorem C10_zoom_zero_witness :
    (handleZoom (JSNum.fin 0)
        { coordinates :=
            { latitude := JSNum.fin 1, longitude := JSNum.fin 2, zoom := JSNum.fin 15 }
          inputCoordinates :=
            { latitude := JSNum.fin 3, longitude := JSNum.fin 4, zoom := JSNum.fin 15 } }).1
      = { coordinates :=
            { latitude := JSNum.fin 1, longitude := JSNum.fin 2, zoom := JSNum.fin 15 }
          inputCoordinates :=
            { latitude := JSNum.fin 3, longitude := JSNum.fin 4, zoom := JSNum.fin 15 } } :=
  C10_zoom_zero.1
    { coordinates :=
        { latitude := JSNum.fin 1, longitude := JSNum.fin 2, zoom := JSNum.fin 15 }
      inputCoordinates :=
        { latitude := JSNum.fin 3, longitude := JSNum.fin 4, zoom := JSNum.fin 15 } }
    15 rfl rfl (by norm_num) (by norm_num)

/-- One `handleZoom 10` step on a finite committed zoom at least 10 yields
`min (q + 10) 21`. -/
lemma zoomStep_fin_ten (s : MapState) (q : ℚ) (hz : s.coordinates.zoom = JSNum.fin q)
    (h10 : 10 ≤ q) :
    (zoomStep (JSNum.fin 10) s).coordinates.zoom = JSNum.fin (min (q + 10) 21) := by
  show jsMin (jsMax (s.coordinates.zoom.add (JSNum.fin 10)) (JSNum.fin 10)) (JSNum.fin 21)
      = JSNum.fin (min (q + 10) 21)
  rw [hz]
  simp only [JSNum.add, jsMax, jsMin, JSNum.fin.injEq]
  rw [max_eq_left (by linarith)]

/-- Once the committed zoom is 21, a `handleZoom 10` step keeps it at 21. -/
lemma zoomStep_stay (s : MapState) (h : s.coordinates.zoom = JSNum.fin 21) :
    (zoomStep (JSNum.fin 10) s).coordinates.zoom = JSNum.fin 21 := by
  have hmin : min ((21 : ℚ) + 10) 21 = 21 := by norm_num
  rw [zoomStep_fin_ten s 21 h (by norm_num), hmin]

/-- Once the committed zoom is 21, any number of `handleZoom 10` steps
keeps it at 21. -/
lemma zoomStep_iterate_stay (m : ℕ) (s : MapState)
    (h : s.coordinates.zoom = JSNum.fin 21) :
    ((zoomStep (JSNum.fin 10))^[m] s).coordinates.zoom = JSNum.fin 21 := by
  induction m generalizing s with
  | zero => simpa using h
  | succ n ih =>
    rw [Function.iterate_succ_apply]
    exact ih _ (zoomStep_stay s h)

/-- C8: from the default state, `handleZoom 1` makes the committed zoom
18.15; and from any state whose committed zoom is a finite value in
[10, 21], two or more `handleZoom 10` steps reach and then stay at exactly
21 (saturation at the upper clamp bound). -/
theorem C8_zoom_saturation :
    ((handleZoom (JSNum.fin 1) initialState).1.coordinates.zoom = JSNum.fin (1815 / 100))
    ∧ ∀ (s : MapState) (q : ℚ), s.coordinates.zoom = JSNum.fin q → 10 ≤ q → q ≤ 21 →
        ∀ n : ℕ, 2 ≤ n →
          ((zoomStep (JSNum.fin 10))^[n] s).coordinates.zoom = JSNum.fin 21 := by
  constructor
  · show jsMin (jsMax (initialState.coordinates.zoom.add (JSNum.fin 1)) (JSNum.fin 10))
        (JSNum.fin 21) = JSNum.fin (1815 / 100)
    show JSNum.fin (min (max (1715 / 100 + 1) 10) 21) = JSNum.fin (1815 / 100)
    norm_num
  · intro s q hz h10 h21 n hn
    obtain ⟨m, rfl⟩ := Nat.exists_eq_add_of_le hn
    rw [add_comm, Function.iterate_add_apply]
    apply zoomStep_iterate_stay
    have h1 := zoomStep_fin_ten s q hz h10
    have h1b : (10 : ℚ) ≤ min (q + 10) 21 := le_min (by linarith) (by norm_num)
    have h2 := zoomStep_fin_ten _ _ h1 h1b
    have hf2 : (zoomStep (JSNum.fin 10))^[2] s
        = zoomStep (JSNum.fin 10) (zoomStep (JSNum.fin 10) s) := rfl
    have hsat : min (min (q + 10) 21 + 10) 21 = 21 := by
      rcases le_total (q + 10) 21 with hle | hle
      · rw [min_eq_left hle, min_eq_right (by linarith)]
      · rw [min_eq_right hle, min_eq_right (by norm_num)]
    rw [hf2, h2, hsat]

/-- Witness for C8: two `handleZoom 10` steps from the initial state give
zoom 21. -/
theorem C8_zoom_saturation_witness :
    ((zoomStep (JSNum.fin 10))^[2] initialState).coordinates.zoom = JSNum.fin 21 :=
  C8_zoom_saturation.2 initialState (1715 / 100) rfl (by norm_num) (by norm_num) 2
    (le_refl 2)

/-- C1 as stated is false: the action sequence that types `Infinity` into
the latitude field and navigates commits an infinite latitude, because
validation only rejects NaN. -/
theorem C1_counterexample :
    ¬ ∀ acts : List Action, ((run acts).coordinates).allFinite = true := by
  intro h
  exact absurd (h [Action.update CoordField.latitude "Infinity", Action.navigate])
    (by decide)

/-- One step preserves the invariant that no committed field is NaN, for
actions whose zoom delta (if any) is finite. -/
lemma step_preserves_noNaN (s : MapState) (a : Action)
    (hd : a.finiteDelta = true) (h : s.coordinates.noNaN = true) :
    ((step s a).coordinates).noNaN = true := by
  cases a with
  | update f t => exact h
  | navigate =>
    cases hla : s.inputCoordinates.latitude.isNaN <;>
      cases hlo : s.inputCoordinates.longitude.isNaN <;>
      cases hzo : s.inputCoordinates.zoom.isNaN <;>
      simp_all [step, handleNavigate, View.noNaN]
  | reset => rfl
  | zoomBy d =>
    cases d with
    | nan => simp [Action.finiteDelta, JSNum.isFinite] at hd
    | inf => simp [Action.finiteDelta, JSNum.isFinite] at hd
    | ninf => simp [Action.finiteDelta, JSNum.isFinite] at hd
    | fin p =>
      cases hz : s.coordinates.zoom with
      | nan => simp [View.noNaN, hz, JSNum.isNaN] at h
      | inf => simp_all [step, handleZoom, hz, JSNum.add, jsMax, jsMin, View.noNaN,
          JSNum.isNaN]
      | ninf => simp_all [step, handleZoom, hz, JSNum.add, jsMax, jsMin, View.noNaN,
          JSNum.isNaN]
      | fin q => simp_all [step, handleZoom, hz, JSNum.add, jsMax, jsMin, View.noNaN,
          JSNum.isNaN]

/-- The no-NaN invariant on the committed view is preserved along any
action list with finite zoom deltas. -/
lemma foldl_preserves_noNaN (acts : List Action) (s : MapState)
    (hd : ∀ a ∈ acts, a.finiteDelta = true) (h : s.coordinates.noNaN = true) :
    ((acts.foldl step s).coordinates).noNaN = true := by
  induction acts generalizing s with
  | nil => simpa using h
  | cons a rest ih =>
    simp only [List.foldl_cons]
    exact ih (step s a) (fun b hb => hd b (List.mem_cons_of_mem a hb))
      (step_preserves_noNaN s a (hd a (List.mem_cons_self a rest)) h)

/-- C1 amended: starting from the default state, every state reachable by
`handleInputChange` (arbitrary raw text), `handleNavigate`, `handleReset`
and `handleZoom` with finite deltas has a committed view none of whose
fields is NaN.  (The fields need not be finite: `Infinity` passes the
NaN-only validation, as the counterexample shows.) -/
theorem C1_committed_no_nan (acts : List Action)
    (hd : ∀ a ∈ acts, a.finiteDelta = true) :
    ((run acts).coordinates).noNaN = true :=
  foldl_preserves_noNaN acts initialState hd (by decide)

/-- Witness for C1 on a concrete action sequence exercising all four
handlers. -/
theorem C1_committed_no_nan_witness :
    ((run [Action.update CoordField.latitude "abc", Action.navigate,
        Action.zoomBy (JSNum.fin 1), Action.reset, Action.navigate]).coordinates).noNaN
      = true :=
  C1_committed_no_nan
    [Action.update CoordField.latitude "abc", Action.navigate,
      Action.zoomBy (JSNum.fin 1), Action.reset, Action.navigate]
    (by decide)

end MapViewer
